import Mathlib

/-!
Verification development for the EchoPrep interview platform.

The definitions below are shallow embeddings of the room-lifecycle routes
(`backend/src/server/routes/interviews.ts`, the interview-results route),
the join-window evaluation (`frontend/src/pages/InterviewRoomPage.tsx`) and
the session orchestration logic (`frontend/src/contexts/InterviewContext.tsx`).
Times are modelled in milliseconds since epoch as integers (JS `Date.getTime`),
HTTP responses as a status code plus the database state after the handler ran.
-/

namespace EchoPrep

/-- Room lifecycle status (`status` field of the InterviewRoom schema). -/
inductive RoomStatus
  | scheduled
  | completed
  | cancelled
deriving DecidableEq, Repr

/-- The string stored for each status value, used in error messages. -/
def RoomStatus.text : RoomStatus → String
  | .scheduled => "scheduled"
  | .completed => "completed"
  | .cancelled => "cancelled"

/-- An InterviewRoom document: persisted id (`_id`), room link containing the
embedded token (`roomLink`), organizer (`hr`) and candidate references,
scheduled start in ms, duration in minutes, status and free-text notes. -/
structure Room where
  id : String
  roomLink : String
  hr : String
  candidate : String
  scheduledFor : Int
  duration : Int
  status : RoomStatus
  notes : String
deriving DecidableEq, Repr

/-- Result of one HTTP route handler: status code and the room collection
after any `save()` calls performed by the handler. -/
structure RouteOut where
  code : Nat
  db : List Room
deriving DecidableEq, Repr

/-- Persisting a modified document: the room with the same `_id` is replaced. -/
def updateRoom (db : List Room) (u : Room) : List Room :=
  db.map fun r => if r.id = u.id then u else r

/-- `PUT /:id/cancel`: find the room by id owned by the calling HR user;
404 if absent, 400 if its status is not `scheduled`, otherwise set the
status to `cancelled` and save. -/
def cancelRoute (reqId userId : String) (db : List Room) : RouteOut :=
  match db.find? (fun r => r.id == reqId && r.hr == userId) with
  | none => ⟨404, db⟩
  | some r =>
    if r.status ≠ RoomStatus.scheduled then ⟨400, db⟩
    else ⟨200, updateRoom db { r with status := RoomStatus.cancelled }⟩

/-- `PUT /:id/complete`: find the room by id where the caller is the HR or
the candidate; 404 if absent, 400 if not `scheduled`, else mark completed. -/
def completeRoute (reqId userId : String) (db : List Room) : RouteOut :=
  match db.find? (fun r => r.id == reqId && (r.hr == userId || r.candidate == userId)) with
  | none => ⟨404, db⟩
  | some r =>
    if r.status ≠ RoomStatus.scheduled then ⟨400, db⟩
    else ⟨200, updateRoom db { r with status := RoomStatus.completed }⟩

/-- `PUT /:id/auto-complete` (the older route): find by id; 404 if absent,
400 if not `scheduled`; then complete only when `now` is past
`scheduledFor + duration` minutes, otherwise 400. -/
def autoCompleteTimedRoute (now : Int) (idParam : String) (db : List Room) : RouteOut :=
  match db.find? (fun r => r.id == idParam) with
  | none => ⟨404, db⟩
  | some r =>
    if r.status ≠ RoomStatus.scheduled then ⟨400, db⟩
    else if now > r.scheduledFor + r.duration * 60000 then
      ⟨200, updateRoom db { r with status := RoomStatus.completed }⟩
    else ⟨400, db⟩

/-- Lookup used by `PUT /auto-complete/:id`: try `findById` when the parameter
is a well-formed ObjectId (`isValidId` models `mongoose.Types.ObjectId.isValid`),
then fall back to a `roomLink` match on `/interview-room/` followed by the
parameter. -/
def resolveRoom (isValidId : String → Bool) (db : List Room) (idParam : String) : Option Room :=
  let byId := if isValidId idParam then db.find? (fun r => r.id == idParam) else none
  match byId with
  | some r => some r
  | none => db.find? (fun r => r.roomLink == "/interview-room/" ++ idParam)

/-- `PUT /auto-complete/:id` (the route the room page actually calls):
resolve by id or token; 404 if neither resolves, 400 with message
`Interview is already <status>` if the room is not `scheduled`, otherwise
set the status to `completed` and save.  No time check is performed. -/
def autoCompleteRoute (isValidId : String → Bool) (idParam : String) (db : List Room) : RouteOut :=
  match resolveRoom isValidId db idParam with
  | none => ⟨404, db⟩
  | some r =>
    if r.status ≠ RoomStatus.scheduled then ⟨400, db⟩
    else ⟨200, updateRoom db { r with status := RoomStatus.completed }⟩

/-- `PUT /room/:roomId/complete`: find by room link first, then by direct id;
404 if neither resolves, 400 if not `scheduled`, otherwise mark completed. -/
def completeByRoomRoute (roomId : String) (db : List Room) : RouteOut :=
  match db.find? (fun r => r.roomLink == "/interview-room/" ++ roomId) with
  | some r =>
    if r.status ≠ RoomStatus.scheduled then ⟨400, db⟩
    else ⟨200, updateRoom db { r with status := RoomStatus.completed }⟩
  | none =>
    match db.find? (fun r => r.id == roomId) with
    | none => ⟨404, db⟩
    | some r =>
      if r.status ≠ RoomStatus.scheduled then ⟨400, db⟩
      else ⟨200, updateRoom db { r with status := RoomStatus.completed }⟩

/-- First save of `POST /interview-results`: mark the resolved room
`completed` when it is still `scheduled`, otherwise leave it alone. -/
def completeIfScheduled (r : Room) : Room :=
  if r.status = RoomStatus.scheduled then { r with status := RoomStatus.completed } else r

/-- Second save of `POST /interview-results`: append the note referencing the
stored result to the room's notes (newline-separated when notes exist). -/
def appendNote (r : Room) (newNote : String) : Room :=
  { r with notes := if r.notes.length > 0 then r.notes ++ "\n" ++ newNote else newNote }

/-- Room-collection effect of `POST /interview-results`: when an interview id
(the room-link token) accompanies the result, resolve it against `roomLink`;
404 when unresolvable.  When resolved, complete the room if still scheduled
and append the result note (the two saves composed); respond 201. -/
def postResultRoute (interviewId : Option String) (newNote : String) (db : List Room) : RouteOut :=
  match interviewId with
  | none => ⟨201, db⟩
  | some token =>
    match db.find? (fun r => r.roomLink == "/interview-room/" ++ token) with
    | none => ⟨404, db⟩
    | some r => ⟨201, updateRoom db (appendNote (completeIfScheduled r) newNote)⟩

/-- Property of a room operation: it never produces a `scheduled` room that
was not already `scheduled` in the input collection (status monotonicity). -/
def roomOpMonotone (f : List Room → RouteOut) : Prop :=
  ∀ db r2, r2 ∈ (f db).db → r2.status = RoomStatus.scheduled →
    ∃ r1, r1 ∈ db ∧ r1.id = r2.id ∧ r1.status = RoomStatus.scheduled

/-! ## Clock/time-window evaluation (InterviewRoomPage.fetchInterview) -/

/-- Phase of the join window. -/
inductive WindowPhase
  | notYetOpen
  | joinable
  | ended
deriving DecidableEq, Repr

/-- Join-window evaluation result: the phase plus, in the joinable phase, the
remaining seconds shown by the countdown. -/
structure WindowEval where
  phase : WindowPhase
  remainingSeconds : Option Int
deriving DecidableEq, Repr

/-- The duration actually used by the page: `data.duration || 60`, so a falsy
(zero) duration is replaced by 60 minutes. -/
def effectiveDuration (durationMinutes : Int) : Int :=
  if durationMinutes = 0 then 60 else durationMinutes

/-- `endTime = addMinutes(interviewTime, data.duration || 60)`, in ms. -/
def windowEnd (scheduledFor durationMinutes : Int) : Int :=
  scheduledFor + effectiveDuration durationMinutes * 60000

/-- The join-window logic of `fetchInterview` for a `scheduled` room, with all
times in ms: ended when `now > endTime`; not yet open when
`scheduledFor - now > 300000` (5 minutes); otherwise joinable with
`differenceInSeconds(endTime, now)` clamped to be non-negative
(`remainingSecs > 0 ? remainingSecs : 0`).  `differenceInSeconds` truncates
toward zero, hence `Int.div`. -/
def evaluateWindow (now scheduledFor durationMinutes : Int) : WindowEval :=
  let endTime := windowEnd scheduledFor durationMinutes
  let timeDiff := scheduledFor - now
  if now > endTime then ⟨WindowPhase.ended, none⟩
  else if timeDiff > 300000 then ⟨WindowPhase.notYetOpen, none⟩
  else
    let remainingSecs := (endTime - now).tdiv 1000
    ⟨WindowPhase.joinable, some (if remainingSecs > 0 then remainingSecs else 0)⟩

/-! ## Session data (InterviewContext) -/

/-- A question issued to the session. -/
structure InterviewQuestion where
  id : String
  text : String
deriving DecidableEq, Repr

/-- A captured answer; `score`, `feedback`, `strengths`, `weaknesses` and
`questionText` are optional fields of the TS interface. -/
structure InterviewAnswer where
  questionId : String
  text : String
  score : Option Int
  feedback : Option String
  strengths : Option (List String)
  weaknesses : Option (List String)
  questionText : Option String
deriving DecidableEq, Repr

/-- JS `Math.round`: round half toward positive infinity, i.e. `⌊x + 1/2⌋`. -/
def jsRound (q : ℚ) : Int := ⌊q + (1 : ℚ) / 2⌋

/-- `finishInterview` total score: filter the recorded answers to those whose
`score` is defined, sum `answer.score || 0` over them with `reduce`, divide by
their number and `Math.round`; `0` when no answer has a defined score. -/
def totalScoreOf (answers : List InterviewAnswer) : Int :=
  let answersWithScores := answers.filter (fun a => a.score.isSome)
  let sum : Int := answersWithScores.foldl (fun s a => s + a.score.getD 0) 0
  if answersWithScores.length > 0 then
    jsRound ((sum : ℚ) / (answersWithScores.length : ℚ))
  else 0

/-- Spec-side restatement of the total score: the rounded mean of the defined
scores (`filterMap`), `0` if there are none.  Compared with `totalScoreOf`. -/
def specTotalScore (answers : List InterviewAnswer) : Int :=
  let scores : List Int := answers.filterMap (fun a => a.score)
  if scores = [] then 0
  else jsRound ((scores.sum : ℚ) / (scores.length : ℚ))

/-- Aggregate feedback text for a total score of at least 80. -/
def EXCELLENT_FEEDBACK : String :=
  "Excellent job! You demonstrated strong communication skills and provided comprehensive answers."

/-- Aggregate feedback text for a total score in [70, 80). -/
def GOOD_FEEDBACK : String :=
  "Good job! Your answers were solid with some room for improvement in specific areas."

/-- Aggregate feedback text for a total score in [60, 70). -/
def SATISFACTORY_FEEDBACK : String :=
  "Satisfactory performance. With some preparation, you can improve your interview skills."

/-- Aggregate feedback text for a total score below 60. -/
def NEEDS_PRACTICE_FEEDBACK : String :=
  "You need more practice with interview questions. Focus on being more specific and structured in your answers."

/-- Banded aggregate feedback of `finishInterview`, keyed on the total score. -/
def aggregateFeedback (totalScore : Int) : String :=
  if totalScore ≥ 80 then EXCELLENT_FEEDBACK
  else if totalScore ≥ 70 then GOOD_FEEDBACK
  else if totalScore ≥ 60 then SATISFACTORY_FEEDBACK
  else NEEDS_PRACTICE_FEEDBACK

/-- `[...new Set(xs)]`: deduplication by insertion into a JS Set, which keeps
the first occurrence of each element in encounter order. -/
def jsSetDedup (xs : List String) : List String :=
  xs.foldl (fun acc x => if acc.contains x then acc else acc ++ [x]) []

/-- Spec-side first-seen deduplication: keep the head, drop its later
duplicates, recurse.  Compared with `jsSetDedup`. -/
def dedupFirstSeen : List String → List String
  | [] => []
  | x :: xs => x :: dedupFirstSeen (xs.filter (fun y => y != x))
termination_by l => l.length
decreasing_by
  simp only [List.length_cons]
  exact Nat.lt_succ_of_le (List.length_filter_le _ _)

/-- All per-answer strength tags flattened (`answer.strengths || []`), with
falsy (empty) strings dropped. -/
def allStrengthsOf (answers : List InterviewAnswer) : List String :=
  (answers.map (fun a => a.strengths.getD [])).flatten.filter (fun s => s != "")

/-- All per-answer weakness tags flattened, with empty strings dropped. -/
def allWeaknessesOf (answers : List InterviewAnswer) : List String :=
  (answers.map (fun a => a.weaknesses.getD [])).flatten.filter (fun s => s != "")

/-- `uniqueStrengths = [...new Set(allStrengths)].slice(0, 5)`. -/
def uniqueStrengthsOf (answers : List InterviewAnswer) : List String :=
  (jsSetDedup (allStrengthsOf answers)).take 5

/-- `uniqueImprovements = [...new Set(allWeaknesses)].slice(0, 5)`. -/
def uniqueImprovementsOf (answers : List InterviewAnswer) : List String :=
  (jsSetDedup (allWeaknessesOf answers)).take 5

/-- The answer synthesized by `finishInterview` for a question with no
recorded answer. -/
def skippedAnswer (q : InterviewQuestion) : InterviewAnswer :=
  { questionId := q.id
    text := "Skipped"
    score := some 0
    feedback := some "This question was skipped."
    strengths := some []
    weaknesses := some []
    questionText := some q.text }

/-- One entry of the final answer list: the recorded answer for the question
(with `questionText` taken from the definitive question object) or the
synthesized skipped answer. -/
def aggregateEntry (answers : List InterviewAnswer) (q : InterviewQuestion) : InterviewAnswer :=
  match answers.find? (fun a => a.questionId == q.id) with
  | some a => { a with questionText := some q.text }
  | none => skippedAnswer q

/-- `finalAnswers`: one entry per question of the ordered question list. -/
def finalAnswersOf (questions : List InterviewQuestion) (answers : List InterviewAnswer) :
    List InterviewAnswer :=
  questions.map (aggregateEntry answers)

/-! ## Answer submission (saveAnswer / analyzeAnswer) -/

/-- Whitespace stripped by JS `String.prototype.trim` (common ASCII set). -/
def jsWhitespaceChar (c : Char) : Bool :=
  c == ' ' || c == '\t' || c == '\n' || c == '\r' || c == '\x0b' || c == '\x0c'

/-- JS `text.trim()`: drop leading and trailing whitespace. -/
def jsTrim (s : String) : String :=
  ⟨((s.data.dropWhile jsWhitespaceChar).reverse.dropWhile jsWhitespaceChar).reverse⟩

/-- Analysis returned for one answer: score 0-100, feedback, optional tag
lists (the shape `analyzeAnswer` resolves with). -/
structure ScoreAnalysis where
  score : Int
  feedback : String
  strengths : Option (List String)
  weaknesses : Option (List String)
deriving DecidableEq, Repr

/-- The answers-state update of `saveAnswer`: `findIndex` by question id and
replace in place (spread keeps the existing `questionText` since the new data
does not carry one), or push at the end when absent. -/
def upsertAnswer : List InterviewAnswer → InterviewAnswer → List InterviewAnswer
  | [], fa => [fa]
  | a :: rest, fa =>
    if a.questionId == fa.questionId then { fa with questionText := a.questionText } :: rest
    else a :: upsertAnswer rest fa

/-- `saveAnswer`: when the trimmed answer text is non-empty and longer than 10
characters, call the scoring gateway (`oracle`, given the current question's
prompt) and record its analysis; otherwise record score 0 with the fixed
too-short feedback and no gateway call.  The Bool reports whether the gateway
was invoked. -/
def saveAnswer (oracle : String → String → ScoreAnalysis) (currentQuestion : InterviewQuestion)
    (questionId text : String) (prev : List InterviewAnswer) : List InterviewAnswer × Bool :=
  if text ≠ "" ∧ (jsTrim text).length > 10 then
    let analysis := oracle currentQuestion.text text
    (upsertAnswer prev
      { questionId := questionId
        text := text
        score := some analysis.score
        feedback := some analysis.feedback
        strengths := some (analysis.strengths.getD [])
        weaknesses := some (analysis.weaknesses.getD [])
        questionText := none }, true)
  else
    (upsertAnswer prev
      { questionId := questionId
        text := text
        score := some 0
        feedback := some "Answer was too short for analysis."
        strengths := some []
        weaknesses := some []
        questionText := none }, false)

/-! ## Question count derivation (startInterview) -/

/-- 180 seconds (3 minutes) per question. -/
def QUESTION_TIME_LIMIT_SECONDS : Int := 180

/-- Fixed question count for a practice session. -/
def DEFAULT_PRACTICE_QUESTION_COUNT : Int := 10

/-- Fallback question count for a scheduled session without a known duration. -/
def DEFAULT_SCHEDULED_QUESTION_COUNT : Int := 5

/-- The `startInterview` options relevant to the question-count derivation. -/
structure StartOptions where
  interviewId : Option String
  durationInSeconds : Option Int
  isHrScheduled : Option Bool
deriving DecidableEq, Repr

/-- JS truthiness of `options?.interviewId` (`!!options?.interviewId`):
present and non-empty. -/
def jsTruthyId : Option String → Bool
  | none => false
  | some s => s != ""

/-- `options?.isHrScheduled !== undefined ? options.isHrScheduled :
!!options?.interviewId`. -/
def hrScheduledCheck (o : StartOptions) : Bool :=
  match o.isHrScheduled with
  | some b => b
  | none => jsTruthyId o.interviewId

/-- Question count: for an HR-scheduled session with a truthy positive
duration, `Math.max(1, Math.floor(durationInSeconds / 180))`; for a scheduled
session otherwise the scheduled default; for a practice session the practice
default. -/
def questionCount (o : StartOptions) : Int :=
  if hrScheduledCheck o then
    match o.durationInSeconds with
    | some d =>
      if d ≠ 0 ∧ d > 0 then max 1 (d.fdiv QUESTION_TIME_LIMIT_SECONDS)
      else DEFAULT_SCHEDULED_QUESTION_COUNT
    | none => DEFAULT_SCHEDULED_QUESTION_COUNT
  else DEFAULT_PRACTICE_QUESTION_COUNT

/-! ## Scoring gateway (gemini/analyze route and analyzeAnswer fallback) -/

/-- Successful payload of the evaluator service: normalized score 0.0-1.0
plus feedback text. -/
structure OracleScore where
  score : ℚ
  feedback : String
deriving DecidableEq, Repr

/-- `POST /gemini/analyze` score adaptation:
`Math.round(response.data.score * 100)`. -/
def analyzeRouteScore (s : ℚ) : Int := jsRound (s * 100)

/-- Fallback feedback produced when the analysis API call fails. -/
def FALLBACK_FEEDBACK : String :=
  "Error analyzing your answer with the AI service. This is fallback feedback."

/-- The mock analysis `analyzeAnswer` returns on failure:
`Math.floor(Math.random() * 21) + 50` with `random` the drawn value in
[0, 1), fixed feedback, no strengths and an advisory weakness. -/
def fallbackAnalysis (random : ℚ) : ScoreAnalysis :=
  { score := ⌊random * 21⌋ + 50
    feedback := FALLBACK_FEEDBACK
    strengths := some []
    weaknesses := some ["AI analysis unavailable"] }

/-- `analyzeAnswer` end to end: on a successful gateway response adapt the
normalized score; on failure (no response) fall back to the mock analysis. -/
def analyzeAnswerModel (oracleResp : Option OracleScore) (random : ℚ) : ScoreAnalysis :=
  match oracleResp with
  | some resp =>
    { score := analyzeRouteScore resp.score
      feedback := resp.feedback
      strengths := none
      weaknesses := none }
  | none => fallbackAnalysis random

/-! ## Static fallback question table (MOCK_QUESTIONS) -/

/-- Job roles supported by the platform. -/
inductive JobRole
  | webDeveloper
  | appDeveloper
  | mlAi
  | uxDesigner
  | dataScientist
deriving DecidableEq, Repr, Fintype

/-- Experience levels supported by the platform. -/
inductive ExperienceLevel
  | fresher
  | junior
  | midLevel
  | senior
deriving DecidableEq, Repr, Fintype

/-- The string value of each job role. -/
def JobRole.text : JobRole → String
  | .webDeveloper => "web-developer"
  | .appDeveloper => "app-developer"
  | .mlAi => "ml-ai"
  | .uxDesigner => "ux-designer"
  | .dataScientist => "data-scientist"

/-- The string value of each experience level. -/
def ExperienceLevel.text : ExperienceLevel → String
  | .fresher => "fresher"
  | .junior => "junior"
  | .midLevel => "mid-level"
  | .senior => "senior"

/-- The static per-role/per-level fallback question table. -/
def MOCK_QUESTIONS : JobRole → ExperienceLevel → List String
  | .webDeveloper, .fresher =>
    [ "Tell me about yourself and your interest in web development.",
      "What HTML and CSS concepts are you familiar with?",
      "Have you worked with JavaScript before? What basic concepts do you understand?",
      "Describe a simple web project you\x27ve worked on." ]
  | .webDeveloper, .junior =>
    [ "Tell me about your experience with responsive design.",
      "How do you approach debugging in JavaScript?",
      "Explain the difference between let, const, and var in JavaScript.",
      "What frontend frameworks or libraries have you worked with?" ]
  | .webDeveloper, .midLevel =>
    [ "Explain the concept of closures in JavaScript.",
      "How do you handle state management in a React application?",
      "Describe your experience with RESTful APIs.",
      "How do you optimize website performance?" ]
  | .webDeveloper, .senior =>
    [ "Describe a complex architecture you\x27ve designed for a web application.",
      "How do you approach testing in a large-scale web application?",
      "Explain your experience with microservices in web development.",
      "How do you mentor junior developers in your team?" ]
  | .appDeveloper, .fresher =>
    [ "Why are you interested in mobile app development?",
      "What programming languages have you learned?",
      "Describe a simple app idea you would like to build.",
      "What do you know about the app development lifecycle?" ]
  | .appDeveloper, .junior =>
    [ "Tell me about an app you\x27ve worked on.",
      "How familiar are you with native vs cross-platform development?",
      "Describe your experience with state management in mobile apps.",
      "How do you handle user input validation?" ]
  | .appDeveloper, .midLevel =>
    [ "Explain your approach to app architecture.",
      "How do you handle offline capabilities in mobile apps?",
      "Describe your experience with consuming APIs in mobile applications.",
      "How do you approach testing for mobile applications?" ]
  | .appDeveloper, .senior =>
    [ "Describe a complex mobile architecture you\x27ve designed.",
      "How do you approach performance optimization in mobile apps?",
      "Explain your experience with CI/CD for mobile applications.",
      "How do you manage dependencies in large-scale mobile applications?" ]
  | .mlAi, .fresher =>
    [ "Why are you interested in AI and machine learning?",
      "What ML/AI concepts have you studied?",
      "Have you completed any ML projects or courses?",
      "What programming languages do you know for data analysis?" ]
  | .mlAi, .junior =>
    [ "Explain the difference between supervised and unsupervised learning.",
      "Describe a simple ML project you\x27ve worked on.",
      "How familiar are you with Python libraries for ML?",
      "What do you know about data preprocessing?" ]
  | .mlAi, .midLevel =>
    [ "Explain how you would approach a classification problem.",
      "Describe your experience with neural networks.",
      "How do you evaluate ML model performance?",
      "What experience do you have with NLP or computer vision?" ]
  | .mlAi, .senior =>
    [ "Describe a complex ML system you\x27ve designed and deployed.",
      "How do you approach ML model optimization and maintenance?",
      "Explain your experience with distributed computing for ML.",
      "How do you stay current with the rapidly evolving field of AI?" ]
  | .uxDesigner, .fresher =>
    [ "Why are you interested in UX design?",
      "What design tools have you learned to use?",
      "Describe your understanding of user-centered design.",
      "Have you created any design projects yet?" ]
  | .uxDesigner, .junior =>
    [ "Tell me about your design process.",
      "How do you conduct user research?",
      "Describe a design project you\x27ve worked on.",
      "How do you handle feedback on your designs?" ]
  | .uxDesigner, .midLevel =>
    [ "How do you translate user needs into design solutions?",
      "Describe your experience with usability testing.",
      "How do you collaborate with developers?",
      "Tell me about a challenging design problem you solved." ]
  | .uxDesigner, .senior =>
    [ "How do you approach UX strategy for large products?",
      "Describe how you\x27ve built or managed a design system.",
      "How do you measure the success of your UX designs?",
      "Tell me about how you mentor junior designers." ]
  | .dataScientist, .fresher =>
    [ "Why are you interested in data science?",
      "What statistical concepts are you familiar with?",
      "What programming languages do you know for data analysis?",
      "Have you worked on any data projects?" ]
  | .dataScientist, .junior =>
    [ "Describe a data analysis project you\x27ve worked on.",
      "How do you approach data cleaning and preparation?",
      "What visualization tools have you worked with?",
      "How do you determine which statistical test to use?" ]
  | .dataScientist, .midLevel =>
    [ "How do you approach feature engineering?",
      "Describe your experience with big data technologies.",
      "How do you communicate technical findings to non-technical stakeholders?",
      "Tell me about a challenging data problem you solved." ]
  | .dataScientist, .senior =>
    [ "How do you build data science teams and processes?",
      "Describe a complex data pipeline you\x27ve designed.",
      "How do you approach model deployment and monitoring?",
      "How do you ensure ethical use of data in your projects?" ]

/-- The fallback question list used when the gateway fetch fails: the mock
table entry for the configuration, or a single generic question when the
table has no entries for the combination. -/
def fallbackQuestions (role : JobRole) (level : ExperienceLevel) : List String :=
  let mock := MOCK_QUESTIONS role level
  if mock.length > 0 then mock
  else [ "Mock questions for " ++ role.text ++ "/" ++ level.text ++
         " not defined. Tell me about a project you are proud of." ]

/-- Question resolution of `startInterview`: on a successful gateway response
use exactly the returned questions; on failure use the static fallback.
The derived `count` is part of the gateway request only. -/
def resolveQuestions (gatewayResp : Option (List String)) (role : JobRole)
    (level : ExperienceLevel) (count : Int) : List String :=
  match gatewayResp with
  | some qs => qs
  | none => fallbackQuestions role level

/-! ## Concrete rooms and helpers used by witnesses and counterexamples -/

/-- A resolver that accepts every id parameter as a well-formed ObjectId. -/
def vAll : String → Bool := fun _ => true

/-- A concrete scheduled room. -/
def roomSched : Room :=
  { id := "a1", roomLink := "/interview-room/t1", hr := "h1", candidate := "c1",
    scheduledFor := 0, duration := 60, status := RoomStatus.scheduled, notes := "" }

/-- A concrete completed room. -/
def roomDone : Room :=
  { id := "a1", roomLink := "/interview-room/t1", hr := "h1", candidate := "c1",
    scheduledFor := 0, duration := 60, status := RoomStatus.completed, notes := "" }

/-- Questions Q1-Q3 of the aggregation scenario. -/
def exQuestions : List InterviewQuestion :=
  [ { id := "q1", text := "Q1" }, { id := "q2", text := "Q2" }, { id := "q3", text := "Q3" } ]

/-- Recorded answers for Q1 (score 90) and Q3 (score 70) only. -/
def exAnswers : List InterviewAnswer :=
  [ { questionId := "q1", text := "answer one", score := some 90, feedback := some "good",
      strengths := some ["clarity"], weaknesses := some [], questionText := none },
    { questionId := "q3", text := "answer three", score := some 70, feedback := some "ok",
      strengths := some ["clarity", "depth"], weaknesses := some ["pace"], questionText := none } ]

/-- A constant scoring oracle used by witnesses. -/
def exOracle : String → String → ScoreAnalysis :=
  fun _ _ =>
    { score := 77, feedback := "solid", strengths := some ["detail"], weaknesses := some [] }

/-- Concrete start options of a scheduled session with a 900 second duration. -/
def exOptions : StartOptions :=
  { interviewId := some "room-1", durationInSeconds := some 900, isHrScheduled := none }

/-! ## Helper lemmas -/

theorem find?_singleton {α : Type} (p : α → Bool) (x : α) :
    List.find? p [x] = if p x then some x else none := by
  cases h : p x <;> simp [List.find?, h]

theorem mem_db_of_mem_updateRoom {db : List Room} {u r2 : Room}
    (hu : u.status ≠ RoomStatus.scheduled) (h : r2 ∈ updateRoom db u)
    (hs : r2.status = RoomStatus.scheduled) : r2 ∈ db := by
  unfold updateRoom at h
  rcases List.mem_map.mp h with ⟨x, hx, hfx⟩
  by_cases hid : x.id = u.id
  · rw [if_pos hid] at hfx
    subst hfx
    exact absurd hs hu
  · rw [if_neg hid] at hfx
    subst hfx
    exact hx

theorem completeIfScheduled_status (r : Room) :
    (completeIfScheduled r).status ≠ RoomStatus.scheduled := by
  unfold completeIfScheduled
  by_cases hr : r.status = RoomStatus.scheduled
  · rw [if_pos hr]; intro hcon; exact RoomStatus.noConfusion hcon
  · rw [if_neg hr]; exact hr

theorem status_completed_ne (r : Room) :
    ({ r with status := RoomStatus.completed } : Room).status ≠ RoomStatus.scheduled :=
  fun hcon => RoomStatus.noConfusion hcon

theorem status_cancelled_ne (r : Room) :
    ({ r with status := RoomStatus.cancelled } : Room).status ≠ RoomStatus.scheduled :=
  fun hcon => RoomStatus.noConfusion hcon

theorem cancelRoute_monotone (reqId userId : String) :
    roomOpMonotone (cancelRoute reqId userId) := by
  intro db r2 hmem hs
  unfold cancelRoute at hmem
  split at hmem
  · exact ⟨r2, hmem, rfl, hs⟩
  · split at hmem
    · exact ⟨r2, hmem, rfl, hs⟩
    · refine ⟨r2, mem_db_of_mem_updateRoom ?_ hmem hs, rfl, hs⟩
      exact fun hcon => RoomStatus.noConfusion hcon

theorem completeRoute_monotone (reqId userId : String) :
    roomOpMonotone (completeRoute reqId userId) := by
  intro db r2 hmem hs
  unfold completeRoute at hmem
  split at hmem
  · exact ⟨r2, hmem, rfl, hs⟩
  · split at hmem
    · exact ⟨r2, hmem, rfl, hs⟩
    · refine ⟨r2, mem_db_of_mem_updateRoom ?_ hmem hs, rfl, hs⟩
      exact fun hcon => RoomStatus.noConfusion hcon

theorem autoCompleteTimedRoute_monotone (now : Int) (idParam : String) :
    roomOpMonotone (autoCompleteTimedRoute now idParam) := by
  intro db r2 hmem hs
  unfold autoCompleteTimedRoute at hmem
  split at hmem
  · exact ⟨r2, hmem, rfl, hs⟩
  · split at hmem
    · exact ⟨r2, hmem, rfl, hs⟩
    · split at hmem
      · refine ⟨r2, mem_db_of_mem_updateRoom ?_ hmem hs, rfl, hs⟩
        exact fun hcon => RoomStatus.noConfusion hcon
      · exact ⟨r2, hmem, rfl, hs⟩

theorem autoCompleteRoute_monotone (isValidId : String → Bool) (idParam : String) :
    roomOpMonotone (autoCompleteRoute isValidId idParam) := by
  intro db r2 hmem hs
  unfold autoCompleteRoute at hmem
  split at hmem
  · exact ⟨r2, hmem, rfl, hs⟩
  · split at hmem
    · exact ⟨r2, hmem, rfl, hs⟩
    · refine ⟨r2, mem_db_of_mem_updateRoom ?_ hmem hs, rfl, hs⟩
      exact fun hcon => RoomStatus.noConfusion hcon

theorem completeByRoomRoute_monotone (roomId : String) :
    roomOpMonotone (completeByRoomRoute roomId) := by
  intro db r2 hmem hs
  unfold completeByRoomRoute at hmem
  split at hmem
  · split at hmem
    · exact ⟨r2, hmem, rfl, hs⟩
    · refine ⟨r2, mem_db_of_mem_updateRoom ?_ hmem hs, rfl, hs⟩
      exact fun hcon => RoomStatus.noConfusion hcon
  · split at hmem
    · exact ⟨r2, hmem, rfl, hs⟩
    · split at hmem
      · exact ⟨r2, hmem, rfl, hs⟩
      · refine ⟨r2, mem_db_of_mem_updateRoom ?_ hmem hs, rfl, hs⟩
        exact fun hcon => RoomStatus.noConfusion hcon

theorem postResultRoute_monotone (interviewId : Option String) (newNote : String) :
    roomOpMonotone (postResultRoute interviewId newNote) := by
  intro db r2 hmem hs
  unfold postResultRoute at hmem
  split at hmem
  · exact ⟨r2, hmem, rfl, hs⟩
  · split at hmem
    · exact ⟨r2, hmem, rfl, hs⟩
    · refine ⟨r2, mem_db_of_mem_updateRoom ?_ hmem hs, rfl, hs⟩
      exact completeIfScheduled_status _

theorem resolveRoom_singleton (vfn : String → Bool) (idParam : String) (x : Room) :
    resolveRoom vfn [x] idParam =
      if vfn idParam ∧ x.id == idParam then some x
      else if x.roomLink == "/interview-room/" ++ idParam then some x
      else none := by
  unfold resolveRoom
  by_cases hv : vfn idParam
  · rw [if_pos hv, find?_singleton]
    by_cases hid : (x.id == idParam : Bool)
    · rw [if_pos hid, if_pos ⟨hv, hid⟩]
    · rw [if_neg hid, if_neg (fun hcon => hid hcon.2), find?_singleton]
  · rw [if_neg hv, if_neg (fun hcon => hv hcon.1), find?_singleton]

/-! ## Claims about the room lifecycle -/

/-- Claim C2: once a room is `completed` or `cancelled`, the cancel and
complete routes fail with a 400 guard violation leaving the collection
unchanged, and none of the room routes (cancel, complete, complete-by-room,
both auto-complete routes, result submission) ever takes a room's status
back to `scheduled`. -/
theorem room_status_monotonic :
    (∀ reqId userId db r, db.find? (fun x => x.id == reqId && x.hr == userId) = some r →
       r.status ≠ RoomStatus.scheduled → cancelRoute reqId userId db = ⟨400, db⟩) ∧
    (∀ reqId userId db r,
       db.find? (fun x => x.id == reqId && (x.hr == userId || x.candidate == userId)) = some r →
       r.status ≠ RoomStatus.scheduled → completeRoute reqId userId db = ⟨400, db⟩) ∧
    (∀ reqId userId, roomOpMonotone (cancelRoute reqId userId)) ∧
    (∀ reqId userId, roomOpMonotone (completeRoute reqId userId)) ∧
    (∀ roomId, roomOpMonotone (completeByRoomRoute roomId)) ∧
    (∀ isValidId idParam, roomOpMonotone (autoCompleteRoute isValidId idParam)) ∧
    (∀ now idParam, roomOpMonotone (autoCompleteTimedRoute now idParam)) ∧
    (∀ interviewId newNote, roomOpMonotone (postResultRoute interviewId newNote)) := by
  refine ⟨?_, ?_, cancelRoute_monotone, completeRoute_monotone, completeByRoomRoute_monotone,
    autoCompleteRoute_monotone, autoCompleteTimedRoute_monotone, postResultRoute_monotone⟩
  · intro reqId userId db r hfind hstat
    unfold cancelRoute
    simp only [hfind]
    rw [if_pos hstat]
  · intro reqId userId db r hfind hstat
    unfold completeRoute
    simp only [hfind]
    rw [if_pos hstat]

/-- Witness for C2 at concrete inputs: the guard rejection on a completed
room and the monotonicity conclusion on a scheduled room. -/
theorem room_status_monotonic_witness :
    cancelRoute "a1" "h1" [roomDone] = ⟨400, [roomDone]⟩ ∧
    completeRoute "a1" "c1" [roomDone] = ⟨400, [roomDone]⟩ ∧
    (∃ r1, r1 ∈ [roomSched] ∧ r1.id = roomSched.id ∧ r1.status = RoomStatus.scheduled) := by
  have h := room_status_monotonic
  exact ⟨h.1 "a1" "h1" [roomDone] roomDone (by decide) (by decide),
         h.2.1 "a1" "c1" [roomDone] roomDone (by decide) (by decide),
         h.2.2.1 "zz" "h1" [roomSched] roomSched (by decide) (by decide)⟩

/-- Claim C9: the `PUT /auto-complete/:idOrToken` route completes every
`scheduled` room it can resolve (by persisted id or by token) and answers 200
without any check of the current time against the room's end time, while the
older `PUT /:id/auto-complete` route answers 400 without modifying anything
whenever the current time is not past the end time. -/
theorem autoComplete_skips_time_check :
    ∀ (isValidId : String → Bool) (idParam : String) (db : List Room) (r : Room),
      resolveRoom isValidId db idParam = some r → r.status = RoomStatus.scheduled →
      autoCompleteRoute isValidId idParam db =
        ⟨200, updateRoom db { r with status := RoomStatus.completed }⟩ ∧
      (∀ now, ¬ now > r.scheduledFor + r.duration * 60000 →
        db.find? (fun x => x.id == idParam) = some r →
        autoCompleteTimedRoute now idParam db = ⟨400, db⟩) := by
  intro isValidId idParam db r hres hs
  constructor
  · unfold autoCompleteRoute
    simp only [hres]
    rw [if_neg (fun hcon => hcon hs)]
  · intro now hnow hfind
    unfold autoCompleteTimedRoute
    simp only [hfind]
    rw [if_neg (fun hcon => hcon hs), if_neg hnow]

/-- Witness for C9: a scheduled room whose window has not ended (now = 0,
end time = 3600000 ms) is still completed by the id-or-token route, while
the older timed route rejects with 400. -/
theorem autoComplete_skips_time_check_witness :
    autoCompleteRoute vAll "a1" [roomSched] =
      ⟨200, updateRoom [roomSched] { roomSched with status := RoomStatus.completed }⟩ ∧
    autoCompleteTimedRoute 0 "a1" [roomSched] = ⟨400, [roomSched]⟩ := by
  have h := autoComplete_skips_time_check vAll "a1" [roomSched] roomSched (by decide) (by decide)
  exact ⟨h.1, h.2 0 (by decide) (by decide)⟩

/-- Counterexample to claim C1 as stated: auto-complete is not an idempotent
no-op success.  On a one-room collection, the first call completes the
scheduled room and answers 200, but the second call answers 400 (as does any
call on an already-completed room), not a success. -/
theorem autoComplete_repeat_not_success :
    (autoCompleteRoute vAll "a1" [roomDone]).code = 400 ∧
    (autoCompleteRoute vAll "a1" [roomSched]).code = 200 ∧
    (autoCompleteRoute vAll "a1" (autoCompleteRoute vAll "a1" [roomSched]).db).code = 400 := by
  decide

/-- Claim C1 amended: a call to `PUT /auto-complete/:idOrToken` on a room
whose status is already `completed` or `cancelled` fails with HTTP 400
(message `Interview is already <status>`) and leaves the collection
unchanged; consequently calling auto-complete twice in a row on the same
room returns 200 the first time (completing the room) and 400 the second
time, the room staying `completed`. -/
theorem autoComplete_terminal_is_error (vfn : String → Bool) (idParam : String) :
    (∀ db r, resolveRoom vfn db idParam = some r → r.status ≠ RoomStatus.scheduled →
       autoCompleteRoute vfn idParam db = ⟨400, db⟩) ∧
    (∀ r : Room, resolveRoom vfn [r] idParam = some r → r.status = RoomStatus.scheduled →
       autoCompleteRoute vfn idParam [r] =
         ⟨200, [{ r with status := RoomStatus.completed }]⟩ ∧
       autoCompleteRoute vfn idParam [{ r with status := RoomStatus.completed }] =
         ⟨400, [{ r with status := RoomStatus.completed }]⟩) := by
  constructor
  · intro db r hres hstat
    unfold autoCompleteRoute
    simp only [hres]
    rw [if_pos hstat]
  · intro r hres hs
    have hres2 : resolveRoom vfn [{ r with status := RoomStatus.completed }] idParam =
        some { r with status := RoomStatus.completed } := by
      rw [resolveRoom_singleton] at hres ⊢
      by_cases h1 : vfn idParam ∧ (r.id == idParam : Bool)
      · rw [if_pos (show vfn idParam ∧
          (({ r with status := RoomStatus.completed } : Room).id == idParam : Bool) from h1)]
      · rw [if_neg h1] at hres
        have h2 : (r.roomLink == "/interview-room/" ++ idParam : Bool) := by
          by_contra h2
          rw [if_neg h2] at hres
          cases hres
        rw [if_neg (show ¬ (vfn idParam ∧
              (({ r with status := RoomStatus.completed } : Room).id == idParam : Bool)) from h1),
            if_pos (show (({ r with status := RoomStatus.completed } : Room).roomLink ==
              "/interview-room/" ++ idParam : Bool) from h2)]
    constructor
    · unfold autoCompleteRoute
      simp only [hres]
      rw [if_neg (fun hcon => hcon hs)]
      unfold updateRoom
      simp
    · unfold autoCompleteRoute
      simp only [hres2]
      rw [if_pos (status_completed_ne r)]

/-- Witness for amended C1 at a concrete room: 400 on the completed room, and
the concrete 200-then-400 sequence starting from the scheduled room. -/
theorem autoComplete_terminal_is_error_witness :
    autoCompleteRoute vAll "a1" [roomDone] = ⟨400, [roomDone]⟩ ∧
    autoCompleteRoute vAll "a1" [roomSched] =
      ⟨200, [{ roomSched with status := RoomStatus.completed }]⟩ ∧
    autoCompleteRoute vAll "a1" [{ roomSched with status := RoomStatus.completed }] =
      ⟨400, [{ roomSched with status := RoomStatus.completed }]⟩ := by
  have h := autoComplete_terminal_is_error vAll "a1"
  have h2 := h.2 roomSched (by decide) (by decide)
  exact ⟨h.1 [roomDone] roomDone (by decide) (by decide), h2.1, h2.2⟩

/-! ## Claims about the join window -/

/-- Counterexample to claim C3 as stated: with `durationMinutes = 0` the page
falls back to a 60-minute duration (`data.duration || 60`), so at
`now = 60000`, `scheduledFor = 0` the claimed end time `scheduledFor +
durationMinutes` (= 0) is already past, yet the evaluation is `joinable`,
not `ended`. -/
theorem evaluateWindow_zero_duration_not_ended :
    (60000 : Int) > 0 + 0 * 60000 ∧
    (evaluateWindow 60000 0 0).phase = WindowPhase.joinable ∧
    (evaluateWindow 60000 0 0).phase ≠ WindowPhase.ended := by
  decide

/-- Claim C3 amended: with the end time computed from the duration defaulted
to 60 minutes when it is zero (falsy), the evaluation yields exactly one of
the three phases: `ended` iff `now > endTime`; otherwise `notYetOpen` iff
`scheduledFor - now > 5` minutes; otherwise `joinable`, and in the joinable
phase the reported remaining seconds are `(endTime - now) / 1000` clamped to
be at least 0 — in particular never negative. -/
theorem evaluateWindow_phases (now scheduledFor durationMinutes : Int) :
    ((evaluateWindow now scheduledFor durationMinutes).phase = WindowPhase.ended ↔
       now > windowEnd scheduledFor durationMinutes) ∧
    ((evaluateWindow now scheduledFor durationMinutes).phase = WindowPhase.notYetOpen ↔
       (¬ now > windowEnd scheduledFor durationMinutes ∧ scheduledFor - now > 300000)) ∧
    ((evaluateWindow now scheduledFor durationMinutes).phase = WindowPhase.joinable ↔
       (¬ now > windowEnd scheduledFor durationMinutes ∧ ¬ scheduledFor - now > 300000)) ∧
    ((evaluateWindow now scheduledFor durationMinutes).phase = WindowPhase.joinable →
       (evaluateWindow now scheduledFor durationMinutes).remainingSeconds =
         some (if (windowEnd scheduledFor durationMinutes - now).tdiv 1000 > 0
               then (windowEnd scheduledFor durationMinutes - now).tdiv 1000 else 0)) ∧
    (∀ s, (evaluateWindow now scheduledFor durationMinutes).remainingSeconds = some s →
       0 ≤ s) := by
  unfold evaluateWindow
  by_cases h1 : now > windowEnd scheduledFor durationMinutes
  · rw [if_pos h1]
    refine ⟨by simp [h1], by simp [h1], by simp [h1], by simp, by simp⟩
  · rw [if_neg h1]
    by_cases h2 : scheduledFor - now > 300000
    · rw [if_pos h2]
      refine ⟨by simp [h1], by simp [h1, h2], by simp [h2], by simp, by simp⟩
    · rw [if_neg h2]
      refine ⟨by simp [h1], by simp [h2], by simp [h1, h2], by simp, ?_⟩
      intro s hsome
      simp only [Option.some.injEq] at hsome
      subst hsome
      by_cases h3 : (windowEnd scheduledFor durationMinutes - now).tdiv 1000 > 0
      · rw [if_pos h3]
        exact le_of_lt h3
      · rw [if_neg h3]

/-- Witness for amended C3: three minutes before a 60-minute room starts the
phase is joinable and the countdown shows the remaining 63 minutes. -/
theorem evaluateWindow_phases_witness :
    (evaluateWindow (-180000) 0 60).phase = WindowPhase.joinable ∧
    (evaluateWindow (-180000) 0 60).remainingSeconds = some 3780 ∧
    (evaluateWindow 3660000 0 60).phase = WindowPhase.ended ∧
    (evaluateWindow (-600000) 0 60).phase = WindowPhase.notYetOpen := by
  have h := evaluateWindow_phases (-180000) 0 60
  have hj : (evaluateWindow (-180000) 0 60).phase = WindowPhase.joinable :=
    h.2.2.1.mpr (by decide)
  refine ⟨hj, ?_, (evaluateWindow_phases 3660000 0 60).1.mpr (by decide),
    (evaluateWindow_phases (-600000) 0 60).2.1.mpr (by decide)⟩
  rw [h.2.2.2.1 hj]
  decide

/-! ## Claims about result aggregation -/

theorem foldl_add_score (l : List InterviewAnswer) (init : Int) :
    l.foldl (fun s a => s + a.score.getD 0) init
      = init + (l.map (fun a => a.score.getD 0)).sum := by
  induction l generalizing init with
  | nil => simp
  | cons a l ih => simp [ih, add_assoc]

theorem map_getD_filter_isSome (l : List InterviewAnswer) :
    (l.filter (fun a => a.score.isSome)).map (fun a => a.score.getD 0)
      = l.filterMap (fun a => a.score) := by
  induction l with
  | nil => rfl
  | cons a l ih =>
    cases h : a.score with
    | none => simp [List.filter_cons, List.filterMap_cons, h, ih]
    | some v => simp [List.filter_cons, List.filterMap_cons, h, ih]

theorem totalScore_eq_spec (answers : List InterviewAnswer) :
    totalScoreOf answers = specTotalScore answers := by
  have hmap := map_getD_filter_isSome answers
  have hsum : (answers.filter (fun a => a.score.isSome)).foldl
      (fun s a => s + a.score.getD 0) 0 = (answers.filterMap (fun a => a.score)).sum := by
    rw [foldl_add_score, hmap, zero_add]
  have hlen : (answers.filter (fun a => a.score.isSome)).length
      = (answers.filterMap (fun a => a.score)).length := by
    rw [← hmap, List.length_map]
  show (if (answers.filter (fun a => a.score.isSome)).length > 0
        then jsRound ((((answers.filter (fun a => a.score.isSome)).foldl
            (fun s a => s + a.score.getD 0) 0 : Int) : ℚ)
          / ((answers.filter (fun a => a.score.isSome)).length : ℚ))
        else 0)
      = (if answers.filterMap (fun a => a.score) = [] then 0
        else jsRound ((((answers.filterMap (fun a => a.score)).sum : Int) : ℚ)
          / ((answers.filterMap (fun a => a.score)).length : ℚ)))
  rw [hsum, hlen]
  by_cases hempty : answers.filterMap (fun a => a.score) = []
  · rw [if_pos hempty, if_neg (by simp [hempty])]
  · rw [if_neg hempty, if_pos (List.length_pos.mpr hempty)]

/-- Claim C4: the aggregated result has exactly one entry per question of the
ordered question list — the recorded answer (with the definitive question
text) when one exists, a synthesized entry with text "Skipped" and score 0
when none does — and the total score is the rounded mean of the defined
scores of the recorded answers (0 when none is defined). -/
theorem aggregate_result_spec (questions : List InterviewQuestion)
    (answers : List InterviewAnswer) :
    totalScoreOf answers = specTotalScore answers ∧
    (finalAnswersOf questions answers).length = questions.length ∧
    (∀ i : Nat, (finalAnswersOf questions answers)[i]? =
       (questions[i]?).map (aggregateEntry answers)) ∧
    (∀ q a, answers.find? (fun x => x.questionId == q.id) = some a →
       aggregateEntry answers q = { a with questionText := some q.text }) ∧
    (∀ q, answers.find? (fun x => x.questionId == q.id) = none →
       aggregateEntry answers q = skippedAnswer q ∧
       (skippedAnswer q).text = "Skipped" ∧ (skippedAnswer q).score = some 0) := by
  refine ⟨totalScore_eq_spec answers, List.length_map _ _, ?_, ?_, ?_⟩
  · intro i
    exact List.getElem?_map _ _ _
  · intro q a hfind
    unfold aggregateEntry
    rw [hfind]
  · intro q hfind
    unfold aggregateEntry
    rw [hfind]
    exact ⟨rfl, rfl, rfl⟩

/-- Witness for C4 at the scenario of the claim: questions Q1-Q3 with
recorded answers only for Q1 (score 90) and Q3 (score 70) aggregate to
total score 80, and entry 1 is the skipped Q2 answer with text "Skipped"
and score 0. -/
theorem aggregate_result_spec_witness :
    totalScoreOf exAnswers = 80 ∧
    (finalAnswersOf exQuestions exAnswers).length = 3 ∧
    (finalAnswersOf exQuestions exAnswers)[1]? =
      some (skippedAnswer { id := "q2", text := "Q2" }) ∧
    (skippedAnswer { id := "q2", text := "Q2" }).text = "Skipped" ∧
    (skippedAnswer { id := "q2", text := "Q2" }).score = some 0 := by
  have h := aggregate_result_spec exQuestions exAnswers
  have hq2 := h.2.2.2.2 { id := "q2", text := "Q2" } (by decide)
  refine ⟨?_, h.2.1, ?_, hq2.2.1, hq2.2.2⟩
  · rw [h.1]
    show (if exAnswers.filterMap (fun a => a.score) = [] then (0 : Int)
          else jsRound ((((exAnswers.filterMap (fun a => a.score)).sum : Int) : ℚ)
            / ((exAnswers.filterMap (fun a => a.score)).length : ℚ))) = 80
    rw [show exAnswers.filterMap (fun a => a.score) = [90, 70] from rfl]
    rw [if_neg (by decide : ¬ ([90, 70] : List Int) = [])]
    norm_num [jsRound]
  · rw [h.2.2.1 1]
    rw [show Option.map (aggregateEntry exAnswers) exQuestions[1]?
          = some (aggregateEntry exAnswers { id := "q2", text := "Q2" }) from rfl]
    rw [hq2.1]

/-! ## Claims about answer submission -/

theorem upsertAnswer_find (prev : List InterviewAnswer) (fa : InterviewAnswer) :
    ∃ rec, (upsertAnswer prev fa).find? (fun a => a.questionId == fa.questionId) = some rec ∧
      rec.questionId = fa.questionId ∧ rec.text = fa.text ∧
      rec.score = fa.score ∧ rec.feedback = fa.feedback := by
  induction prev with
  | nil =>
    refine ⟨fa, ?_, rfl, rfl, rfl, rfl⟩
    rw [upsertAnswer, find?_singleton, if_pos (by simp)]
  | cons a rest ih =>
    by_cases hq : (a.questionId == fa.questionId : Bool)
    · refine ⟨{ fa with questionText := a.questionText }, ?_, rfl, rfl, rfl, rfl⟩
      rw [upsertAnswer, if_pos hq]
      rw [List.find?_cons_of_pos _ (by simp)]
    · rcases ih with ⟨rec, hfind, hrec⟩
      refine ⟨rec, ?_, hrec⟩
      rw [upsertAnswer, if_neg hq]
      have hq2 : (a.questionId == fa.questionId) = false := by
        cases hb : (a.questionId == fa.questionId)
        · rfl
        · exact absurd hb hq
      simp only [List.find?, hq2]
      exact hfind

theorem upsertAnswer_mem_other (prev : List InterviewAnswer) (fa a : InterviewAnswer)
    (ha : a ∈ prev) (hne : a.questionId ≠ fa.questionId) : a ∈ upsertAnswer prev fa := by
  induction prev with
  | nil => cases ha
  | cons b rest ih =>
    rw [upsertAnswer]
    by_cases hq : (b.questionId == fa.questionId : Bool)
    · rw [if_pos hq]
      rcases List.mem_cons.mp ha with hab | harest
      · subst hab
        exact absurd (by exact beq_iff_eq.mp hq) hne
      · exact List.mem_cons_of_mem _ harest
    · rw [if_neg hq]
      rcases List.mem_cons.mp ha with hab | harest
      · subst hab
        exact List.mem_cons_self _ _
      · exact List.mem_cons_of_mem _ (ih harest)

theorem upsertAnswer_length_fresh (prev : List InterviewAnswer) (fa : InterviewAnswer)
    (h : ∀ a ∈ prev, a.questionId ≠ fa.questionId) :
    (upsertAnswer prev fa).length = prev.length + 1 := by
  induction prev with
  | nil => rfl
  | cons b rest ih =>
    rw [upsertAnswer]
    rw [if_neg (fun hq => h b (List.mem_cons_self _ _) (beq_iff_eq.mp hq))]
    simp only [List.length_cons]
    rw [ih (fun a ha => h a (List.mem_cons_of_mem _ ha))]

theorem upsertAnswer_length_existing (prev : List InterviewAnswer) (fa : InterviewAnswer)
    (h : ∃ a ∈ prev, a.questionId = fa.questionId) :
    (upsertAnswer prev fa).length = prev.length := by
  induction prev with
  | nil => rcases h with ⟨a, ha, _⟩; cases ha
  | cons b rest ih =>
    rw [upsertAnswer]
    by_cases hq : (b.questionId == fa.questionId : Bool)
    · rw [if_pos hq]
      simp only [List.length_cons]
    · rw [if_neg hq]
      simp only [List.length_cons]
      rcases h with ⟨a, ha, haq⟩
      rcases List.mem_cons.mp ha with hab | harest
      · subst hab
        exact absurd (by exact beq_iff_eq.mpr haq) hq
      · rw [ih ⟨a, harest, haq⟩]

/-- Claim C5: an answer whose trimmed text has length at most 10 is recorded
with score 0 and the fixed too-short feedback without invoking the scoring
gateway; the gateway is invoked exactly when the trimmed length exceeds 10;
and the recorded answer is upserted by question id — answers for other
questions survive, a fresh question id grows the list by one, an existing
question id keeps the length (replacement in place). -/
theorem saveAnswer_short_gate (oracle : String → String → ScoreAnalysis)
    (currentQuestion : InterviewQuestion) (questionId text : String)
    (prev : List InterviewAnswer) :
    ((jsTrim text).length ≤ 10 →
      (saveAnswer oracle currentQuestion questionId text prev).2 = false ∧
      ∃ rec, (saveAnswer oracle currentQuestion questionId text prev).1.find?
          (fun a => a.questionId == questionId) = some rec ∧
        rec.text = text ∧ rec.score = some 0 ∧
        rec.feedback = some "Answer was too short for analysis.") ∧
    ((jsTrim text).length > 10 →
      (saveAnswer oracle currentQuestion questionId text prev).2 = true) ∧
    (∀ a ∈ prev, a.questionId ≠ questionId →
      a ∈ (saveAnswer oracle currentQuestion questionId text prev).1) ∧
    ((∀ a ∈ prev, a.questionId ≠ questionId) →
      (saveAnswer oracle currentQuestion questionId text prev).1.length = prev.length + 1) ∧
    ((∃ a ∈ prev, a.questionId = questionId) →
      (saveAnswer oracle currentQuestion questionId text prev).1.length = prev.length) := by
  unfold saveAnswer
  by_cases hcond : text ≠ "" ∧ (jsTrim text).length > 10
  · rw [if_pos hcond]
    refine ⟨fun hshort => absurd hcond.2 (Nat.not_lt.mpr hshort), fun _ => rfl, ?_, ?_, ?_⟩
    · intro a ha hne
      exact upsertAnswer_mem_other prev _ a ha hne
    · intro h
      exact upsertAnswer_length_fresh prev _ h
    · intro h
      exact upsertAnswer_length_existing prev _ h
  · rw [if_neg hcond]
    refine ⟨fun _ => ⟨rfl, ?_⟩, fun hlong => ?_, ?_, ?_, ?_⟩
    · rcases upsertAnswer_find prev
        { questionId := questionId, text := text, score := some 0,
          feedback := some "Answer was too short for analysis.",
          strengths := some [], weaknesses := some [], questionText := none } with
        ⟨rec, hfind, _, htext, hscore, hfb⟩
      exact ⟨rec, hfind, htext, hscore, hfb⟩
    · exfalso
      apply hcond
      refine ⟨?_, hlong⟩
      intro hempty
      subst hempty
      exact absurd hlong (by decide)
    · intro a ha hne
      exact upsertAnswer_mem_other prev _ a ha hne
    · intro h
      exact upsertAnswer_length_fresh prev _ h
    · intro h
      exact upsertAnswer_length_existing prev _ h

/-- Witness for C5: saving the short answer "too short" under question q2
records score 0 with the fixed feedback, does not call the gateway, keeps
the recorded q1/q3 answers and grows the list to 3; a long answer does call
the gateway. -/
theorem saveAnswer_short_gate_witness :
    (saveAnswer exOracle { id := "q2", text := "Q2" } "q2" "too short" exAnswers).2 = false ∧
    (saveAnswer exOracle { id := "q2", text := "Q2" } "q2" "too short" exAnswers).1.length = 3 ∧
    (∃ rec, (saveAnswer exOracle { id := "q2", text := "Q2" } "q2" "too short" exAnswers).1.find?
        (fun a => a.questionId == "q2") = some rec ∧
      rec.text = "too short" ∧ rec.score = some 0 ∧
      rec.feedback = some "Answer was too short for analysis.") ∧
    (saveAnswer exOracle { id := "q2", text := "Q2" } "q2"
      "this answer is long enough to analyze" exAnswers).2 = true := by
  have h := saveAnswer_short_gate exOracle { id := "q2", text := "Q2" } "q2" "too short" exAnswers
  have hlong := saveAnswer_short_gate exOracle { id := "q2", text := "Q2" } "q2"
    "this answer is long enough to analyze" exAnswers
  have hshort := h.1 (by decide)
  exact ⟨hshort.1, h.2.2.2.1 (by decide), hshort.2, hlong.2.1 (by decide)⟩

/-! ## Claim about the question-count derivation -/

/-- Claim C6: for a scheduled session with a known positive duration the
question count is `max(1, floor(durationSeconds / 180))`; for a scheduled
session otherwise, the fixed scheduled fallback (5); for a practice session,
the fixed practice count (10); and when the flag is not explicitly given,
the session counts as HR-scheduled exactly when a (non-empty) room
identifier is supplied. -/
theorem questionCount_spec (o : StartOptions) :
    (∀ d : Int, hrScheduledCheck o = true → o.durationInSeconds = some d → d > 0 →
       questionCount o = max 1 (d.fdiv QUESTION_TIME_LIMIT_SECONDS)) ∧
    (hrScheduledCheck o = true → o.durationInSeconds = none →
       questionCount o = DEFAULT_SCHEDULED_QUESTION_COUNT) ∧
    (∀ d : Int, hrScheduledCheck o = true → o.durationInSeconds = some d → ¬ d > 0 →
       questionCount o = DEFAULT_SCHEDULED_QUESTION_COUNT) ∧
    (hrScheduledCheck o = false → questionCount o = DEFAULT_PRACTICE_QUESTION_COUNT) ∧
    (o.isHrScheduled = none →
       (hrScheduledCheck o = true ↔ ∃ s, o.interviewId = some s ∧ s ≠ "")) := by
  refine ⟨?_, ?_, ?_, ?_, ?_⟩
  · intro d hhr hdur hpos
    unfold questionCount
    rw [if_pos hhr]
    simp only [hdur]
    rw [if_pos ⟨ne_of_gt hpos, hpos⟩]
  · intro hhr hdur
    unfold questionCount
    rw [if_pos hhr]
    simp only [hdur]
  · intro d hhr hdur hnpos
    unfold questionCount
    rw [if_pos hhr]
    simp only [hdur]
    rw [if_neg (fun hcon => hnpos hcon.2)]
  · intro hhr
    unfold questionCount
    rw [if_neg (by simp [hhr])]
  · intro hnone
    unfold hrScheduledCheck
    simp only [hnone]
    unfold jsTruthyId
    cases hid : o.interviewId with
    | none => simp
    | some s => simp [bne_iff_ne]

/-- Witness for C6: a scheduled session with a 900 second duration gets
`max(1, floor(900/180)) = 5` questions; a practice session gets 10. -/
theorem questionCount_spec_witness :
    questionCount exOptions = 5 ∧
    hrScheduledCheck exOptions = true ∧
    questionCount { interviewId := none, durationInSeconds := none, isHrScheduled := none }
      = 10 := by
  have h := questionCount_spec exOptions
  have h900 := h.1 900 (by decide) rfl (by decide)
  refine ⟨?_, by decide, ?_⟩
  · rw [h900]
    decide
  · exact (questionCount_spec
      { interviewId := none, durationInSeconds := none, isHrScheduled := none }).2.2.2.1
      (by decide)

/-! ## Claims about strengths/improvements deduplication and feedback bands -/

theorem contains_append_singleton (acc : List String) (x y : String) :
    (acc ++ [x]).contains y = (acc.contains y || y == x) := by
  simp only [List.contains_eq_any_beq, List.any_append, List.any_cons, List.any_nil,
    Bool.or_false]

theorem jsSetDedup_go (xs : List String) :
    ∀ acc, xs.foldl (fun acc x => if acc.contains x then acc else acc ++ [x]) acc
      = acc ++ dedupFirstSeen (xs.filter (fun y => !acc.contains y)) := by
  induction xs with
  | nil => intro acc; simp [dedupFirstSeen]
  | cons x xs ih =>
    intro acc
    rw [List.foldl_cons]
    by_cases hx : (acc.contains x : Bool)
    · rw [if_pos hx, ih, List.filter_cons]
      rw [if_neg (show ¬ ((!acc.contains x) = true) by rw [hx]; decide)]
    · have hxf : acc.contains x = false := by
        cases h2 : acc.contains x with
        | true => exact absurd h2 hx
        | false => rfl
      rw [if_neg hx, ih, List.filter_cons]
      rw [if_pos (show (!acc.contains x) = true by rw [hxf]; rfl)]
      rw [dedupFirstSeen, List.append_assoc, List.singleton_append]
      congr 2
      rw [List.filter_filter]
      refine congrArg dedupFirstSeen ?_
      apply List.filter_congr
      intro y hy
      rw [contains_append_singleton]
      cases hyx : (y == x) <;> cases hyacc : acc.contains y <;> simp [hyx, hyacc, bne]

theorem jsSetDedup_eq_dedupFirstSeen (xs : List String) :
    jsSetDedup xs = dedupFirstSeen xs := by
  unfold jsSetDedup
  rw [jsSetDedup_go xs []]
  simp

theorem dedupFirstSeen_sublist (xs : List String) : (dedupFirstSeen xs).Sublist xs := by
  induction xs using dedupFirstSeen.induct with
  | case1 => simp [dedupFirstSeen]
  | case2 x xs ih =>
    rw [dedupFirstSeen]
    exact (ih.trans (List.filter_sublist xs)).cons₂ x

theorem mem_dedupFirstSeen {xs : List String} {a : String}
    (h : a ∈ dedupFirstSeen xs) : a ∈ xs :=
  (dedupFirstSeen_sublist xs).mem h

theorem dedupFirstSeen_nodup (xs : List String) : (dedupFirstSeen xs).Nodup := by
  induction xs using dedupFirstSeen.induct with
  | case1 => simp [dedupFirstSeen]
  | case2 x xs ih =>
    rw [dedupFirstSeen]
    refine List.nodup_cons.mpr ⟨?_, ih⟩
    intro hmem
    have hx := List.mem_filter.mp (mem_dedupFirstSeen hmem)
    simp [bne] at hx

/-- Claim C7: the strengths and improvements lists are the flattened
per-answer tags with empty entries dropped, deduplicated preserving
first-seen order (proved by agreement of the JS-Set fold with the recursive
first-seen deduplication) and truncated to at most 5 — hence without
duplicates and a sublist of the flattened tags — and the aggregate feedback
text is keyed solely on the totalScore bands ≥80 / ≥70 / ≥60 / below. -/
theorem strengths_feedback_spec (answers : List InterviewAnswer) (t : Int) :
    uniqueStrengthsOf answers = (dedupFirstSeen (allStrengthsOf answers)).take 5 ∧
    uniqueImprovementsOf answers = (dedupFirstSeen (allWeaknessesOf answers)).take 5 ∧
    (uniqueStrengthsOf answers).length ≤ 5 ∧
    (uniqueImprovementsOf answers).length ≤ 5 ∧
    (uniqueStrengthsOf answers).Nodup ∧
    (uniqueImprovementsOf answers).Nodup ∧
    (uniqueStrengthsOf answers).Sublist (allStrengthsOf answers) ∧
    (uniqueImprovementsOf answers).Sublist (allWeaknessesOf answers) ∧
    (∀ s ∈ allStrengthsOf answers, s ≠ "") ∧
    (∀ s ∈ allWeaknessesOf answers, s ≠ "") ∧
    (t ≥ 80 → aggregateFeedback t = EXCELLENT_FEEDBACK) ∧
    (70 ≤ t → t < 80 → aggregateFeedback t = GOOD_FEEDBACK) ∧
    (60 ≤ t → t < 70 → aggregateFeedback t = SATISFACTORY_FEEDBACK) ∧
    (t < 60 → aggregateFeedback t = NEEDS_PRACTICE_FEEDBACK) := by
  have hs : uniqueStrengthsOf answers = (dedupFirstSeen (allStrengthsOf answers)).take 5 := by
    unfold uniqueStrengthsOf
    rw [jsSetDedup_eq_dedupFirstSeen]
  have hw : uniqueImprovementsOf answers = (dedupFirstSeen (allWeaknessesOf answers)).take 5 := by
    unfold uniqueImprovementsOf
    rw [jsSetDedup_eq_dedupFirstSeen]
  refine ⟨hs, hw, ?_, ?_, ?_, ?_, ?_, ?_, ?_, ?_, ?_, ?_, ?_, ?_⟩
  · rw [hs]; exact List.length_take_le 5 _
  · rw [hw]; exact List.length_take_le 5 _
  · rw [hs]
    exact ((List.take_sublist 5 _).nodup) (dedupFirstSeen_nodup _)
  · rw [hw]
    exact ((List.take_sublist 5 _).nodup) (dedupFirstSeen_nodup _)
  · rw [hs]
    exact (List.take_sublist 5 _).trans (dedupFirstSeen_sublist _)
  · rw [hw]
    exact (List.take_sublist 5 _).trans (dedupFirstSeen_sublist _)
  · intro s hmem
    have := (List.mem_filter.mp hmem).2
    simpa [bne] using this
  · intro s hmem
    have := (List.mem_filter.mp hmem).2
    simpa [bne] using this
  · intro h80
    unfold aggregateFeedback
    rw [if_pos h80]
  · intro h70 h80
    unfold aggregateFeedback
    rw [if_neg (by omega), if_pos h70]
  · intro h60 h70
    unfold aggregateFeedback
    rw [if_neg (by omega), if_neg (by omega), if_pos h60]
  · intro h60
    unfold aggregateFeedback
    rw [if_neg (by omega), if_neg (by omega), if_neg (by omega)]

/-- Witness for C7: the example answers flatten to
["clarity", "clarity", "depth"], deduplicating to ["clarity", "depth"], and
each feedback band is hit at a concrete score. -/
theorem strengths_feedback_spec_witness :
    uniqueStrengthsOf exAnswers = ["clarity", "depth"] ∧
    uniqueImprovementsOf exAnswers = ["pace"] ∧
    aggregateFeedback 85 = EXCELLENT_FEEDBACK ∧
    aggregateFeedback 72 = GOOD_FEEDBACK ∧
    aggregateFeedback 65 = SATISFACTORY_FEEDBACK ∧
    aggregateFeedback 50 = NEEDS_PRACTICE_FEEDBACK := by
  refine ⟨?_, ?_,
    (strengths_feedback_spec exAnswers 85).2.2.2.2.2.2.2.2.2.2.1 (by decide),
    (strengths_feedback_spec exAnswers 72).2.2.2.2.2.2.2.2.2.2.2.1 (by decide) (by decide),
    (strengths_feedback_spec exAnswers 65).2.2.2.2.2.2.2.2.2.2.2.2.1 (by decide) (by decide),
    (strengths_feedback_spec exAnswers 50).2.2.2.2.2.2.2.2.2.2.2.2.2 (by decide)⟩
  · rw [(strengths_feedback_spec exAnswers 85).1]
    rw [show allStrengthsOf exAnswers = ["clarity", "clarity", "depth"] from rfl]
    simp [dedupFirstSeen]
  · rw [(strengths_feedback_spec exAnswers 85).2.1]
    rw [show allWeaknessesOf exAnswers = ["pace"] from rfl]
    simp [dedupFirstSeen]

/-! ## Claim about answer-scoring scale and fallback -/

/-- Claim C8: a successful scoring call records
`Math.round(score * 100)` of the oracle's normalized 0.0-1.0 score (which
lies in 0-100), and a failed call falls back to the synthetic score
`floor(random * 21) + 50` — always within the fixed 50-70 range — with the
fixed feedback saying the AI service was unavailable. -/
theorem scoring_scale_fallback (resp : OracleScore) (random : ℚ) :
    (analyzeAnswerModel (some resp) random).score = jsRound (resp.score * 100) ∧
    (0 ≤ resp.score → resp.score ≤ 1 →
      0 ≤ (analyzeAnswerModel (some resp) random).score ∧
      (analyzeAnswerModel (some resp) random).score ≤ 100) ∧
    (analyzeAnswerModel (some resp) random).feedback = resp.feedback ∧
    (0 ≤ random → random < 1 →
      50 ≤ (analyzeAnswerModel none random).score ∧
      (analyzeAnswerModel none random).score ≤ 70) ∧
    (analyzeAnswerModel none random).feedback = FALLBACK_FEEDBACK := by
  refine ⟨rfl, ?_, rfl, ?_, rfl⟩
  · intro h0 h1
    constructor
    · show (0 : Int) ≤ jsRound (resp.score * 100)
      unfold jsRound
      rw [Int.le_floor]
      push_cast
      nlinarith
    · show jsRound (resp.score * 100) ≤ 100
      have hlt : jsRound (resp.score * 100) < 101 := by
        unfold jsRound
        rw [Int.floor_lt]
        push_cast
        nlinarith
      omega
  · intro h0 h1
    constructor
    · show (50 : Int) ≤ ⌊random * 21⌋ + 50
      have hge : (0 : Int) ≤ ⌊random * 21⌋ := by
        rw [Int.le_floor]
        push_cast
        nlinarith
      omega
    · show ⌊random * 21⌋ + 50 ≤ 70
      have hlt : ⌊random * 21⌋ < 21 := by
        rw [Int.floor_lt]
        push_cast
        nlinarith
      omega

/-- Witness for C8: an oracle score of 0.75 is recorded as 75 (within 0-100),
and the fallback at random = 1/2 scores 60, inside the 50-70 range, with the
fixed unavailable-service feedback. -/
theorem scoring_scale_fallback_witness :
    (analyzeAnswerModel (some { score := 3 / 4, feedback := "ok" }) (1 / 2)).score = 75 ∧
    0 ≤ (analyzeAnswerModel (some { score := 3 / 4, feedback := "ok" }) (1 / 2)).score ∧
    (analyzeAnswerModel (some { score := 3 / 4, feedback := "ok" }) (1 / 2)).score ≤ 100 ∧
    (analyzeAnswerModel none (1 / 2)).score = 60 ∧
    50 ≤ (analyzeAnswerModel none (1 / 2)).score ∧
    (analyzeAnswerModel none (1 / 2)).score ≤ 70 ∧
    (analyzeAnswerModel none (1 / 2)).feedback = FALLBACK_FEEDBACK := by
  have h := scoring_scale_fallback { score := 3 / 4, feedback := "ok" } (1 / 2)
  have hb := h.2.1 (by norm_num) (by norm_num)
  have hf := h.2.2.2.1 (by norm_num) (by norm_num)
  refine ⟨?_, hb.1, hb.2, ?_, hf.1, hf.2, h.2.2.2.2⟩
  · rw [h.1]
    norm_num [jsRound]
  · show (⌊(1 / 2 : ℚ) * 21⌋ + 50 : Int) = 60
    norm_num

/-! ## Claim about the static fallback question table -/

/-- Claim C10: when the gateway fetch fails, the resulting question list is
exactly the static table entry for the role/level — 4 questions for every
combination — independent of the question count derived from the duration;
a successful gateway response is used as-is. -/
theorem fallback_question_count :
    (∀ role level, (fallbackQuestions role level).length = 4) ∧
    (∀ role level c1 c2, resolveQuestions none role level c1
       = resolveQuestions none role level c2) ∧
    (∀ role level c, resolveQuestions none role level c = fallbackQuestions role level) ∧
    (∀ qs role level c, resolveQuestions (some qs) role level c = qs) := by
  refine ⟨?_, fun _ _ _ _ => rfl, fun _ _ _ => rfl, fun _ _ _ _ => rfl⟩
  intro role level
  cases role <;> cases level <;> rfl

end EchoPrep
